import Mathlib

/-!
A shallow embedding of the Gitpod runner/resource analyzer (`src/main.ts`):
the data model, the metrics derivation (`calculateUptime`,
`parseSystemDetails`, `getRegion`, `analyzeRunner`), the cost estimator
(`estimateCost`) and the aggregation performed by `generateMarkdownReport`
(summary counts, totals and the recommendation bullets).

Numbers are modelled as exact rationals (`ℚ`).  The JavaScript source
computes with IEEE doubles, but every quantity the theorems below touch is a
small decimal far from any rounding boundary, so the rational model agrees
with the double model on them.  A JavaScript `NaN` that the source can
observe (from an unparseable `created_at.seconds` string) is modelled as
`Option.none`; `x || d` fallbacks are modelled by explicit helpers that
treat `none`, `0` and `""` as falsy, exactly as JavaScript does.
-/

/-- JSON values, the result type of `JSON.parse` as used by
`parseSystemDetails`.  Object members are kept in textual order; for a
duplicate key, `JSON.parse` keeps the last member while this model keeps
both and looks up the first — no duplicate-key text is involved in any
statement below. -/
inductive JValue where
  | null : JValue
  | bool : Bool → JValue
  | num : ℚ → JValue
  | str : String → JValue
  | arr : List JValue → JValue
  | obj : List (String × JValue) → JValue

/-- JSON whitespace skipping (space, tab, line feed, carriage return). -/
def skipWs : List Char → List Char
  | c :: cs => if c = ' ' ∨ c = '\t' ∨ c = '\n' ∨ c = '\r' then skipWs cs else c :: cs
  | [] => []

/-- Value of a hexadecimal digit, for `\uXXXX` escapes. -/
def hexVal (c : Char) : Option Nat :=
  if '0' ≤ c ∧ c ≤ '9' then some (c.toNat - '0'.toNat)
  else if 'a' ≤ c ∧ c ≤ 'f' then some (c.toNat - 'a'.toNat + 10)
  else if 'A' ≤ c ∧ c ≤ 'F' then some (c.toNat - 'A'.toNat + 10)
  else none

/-- Single-character JSON string escapes. -/
def escChar (c : Char) : Option Char :=
  if c = '"' then some '"'
  else if c = '\\' then some '\\'
  else if c = '/' then some '/'
  else if c = 'b' then some (Char.ofNat 8)
  else if c = 'f' then some (Char.ofNat 12)
  else if c = 'n' then some '\n'
  else if c = 'r' then some '\r'
  else if c = 't' then some '\t'
  else none

/-- Body of a JSON string after the opening quote: returns the decoded
characters and the remaining input.  Fuel-driven; a fuel of the input
length is always enough since each step consumes at least one character. -/
def parseStringRest : Nat → List Char → Option (List Char × List Char)
  | 0, _ => none
  | Nat.succ n, cs =>
    match cs with
    | [] => none
    | c :: cs1 =>
      if c = '"' then some ([], cs1)
      else if c = '\\' then
        match cs1 with
        | 'u' :: h1 :: h2 :: h3 :: h4 :: cs2 =>
          match hexVal h1, hexVal h2, hexVal h3, hexVal h4 with
          | some a, some b, some c3, some d =>
            match parseStringRest n cs2 with
            | some (out, rest) =>
              some (Char.ofNat (((a * 16 + b) * 16 + c3) * 16 + d) :: out, rest)
            | none => none
          | _, _, _, _ => none
        | e :: cs2 =>
          match escChar e with
          | some r =>
            match parseStringRest n cs2 with
            | some (out, rest) => some (r :: out, rest)
            | none => none
          | none => none
        | [] => none
      else if c.toNat < 32 then none
      else
        match parseStringRest n cs1 with
        | some (out, rest) => some (c :: out, rest)
        | none => none

/-- Leading decimal digits of the input, as digit values. -/
def takeDigits : List Char → List Nat × List Char
  | c :: cs =>
    if '0' ≤ c ∧ c ≤ '9' then
      let p := takeDigits cs
      ((c.toNat - '0'.toNat) :: p.1, p.2)
    else ([], c :: cs)
  | [] => ([], [])

/-- Digit list to natural number, most significant digit first. -/
def digitsToNat (ds : List Nat) : Nat :=
  ds.foldl (fun a d => a * 10 + d) 0

/-- A JSON number (`-? digits frac? exp?`), as an exact rational.  (The JSON
restriction on leading zeros is not enforced; no statement below depends on
a numeric literal.) -/
def parseNumber (cs : List Char) : Option (ℚ × List Char) :=
  let sgn := match cs with
    | '-' :: r => (true, r)
    | _ => (false, cs)
  match takeDigits sgn.2 with
  | ([], _) => none
  | (ids, cs2) =>
    let ipart : ℚ := (digitsToNat ids : ℚ)
    let fres : Option (ℚ × List Char) :=
      match cs2 with
      | '.' :: r =>
        match takeDigits r with
        | ([], _) => none
        | (fds, rest) => some (ipart + (digitsToNat fds : ℚ) / ((10 : ℚ) ^ fds.length), rest)
      | _ => some (ipart, cs2)
    match fres with
    | none => none
    | some (mant, cs3) =>
      let eres : Option (ℚ × List Char) :=
        match cs3 with
        | e :: r =>
          if e = 'e' ∨ e = 'E' then
            let es : Bool × List Char := match r with
              | '+' :: r2 => (false, r2)
              | '-' :: r2 => (true, r2)
              | _ => (false, r)
            match takeDigits es.2 with
            | ([], _) => none
            | (eds, rest) =>
              if es.1 then some (mant / (10 : ℚ) ^ digitsToNat eds, rest)
              else some (mant * (10 : ℚ) ^ digitsToNat eds, rest)
          else some (mant, cs3)
        | [] => some (mant, [])
      match eres with
      | none => none
      | some (v, rest) => some ((if sgn.1 then -v else v), rest)

mutual

/-- One JSON value, fuel-driven recursive descent.  Models the grammar
accepted by ECMAScript `JSON.parse`. -/
def parseValue : Nat → List Char → Option (JValue × List Char)
  | 0, _ => none
  | Nat.succ n, cs =>
    match skipWs cs with
    | '{' :: rest =>
      match skipWs rest with
      | '}' :: rest2 => some (JValue.obj [], rest2)
      | cs2 =>
        match parseMembers n cs2 with
        | some (fields, rest2) => some (JValue.obj fields, rest2)
        | none => none
    | '[' :: rest =>
      match skipWs rest with
      | ']' :: rest2 => some (JValue.arr [], rest2)
      | cs2 =>
        match parseElems n cs2 with
        | some (vs, rest2) => some (JValue.arr vs, rest2)
        | none => none
    | '"' :: rest =>
      match parseStringRest (rest.length + 1) rest with
      | some (chars, rem) => some (JValue.str (String.mk chars), rem)
      | none => none
    | 't' :: 'r' :: 'u' :: 'e' :: rest => some (JValue.bool true, rest)
    | 'f' :: 'a' :: 'l' :: 's' :: 'e' :: rest => some (JValue.bool false, rest)
    | 'n' :: 'u' :: 'l' :: 'l' :: rest => some (JValue.null, rest)
    | cs2 =>
      match parseNumber cs2 with
      | some (q, rest) => some (JValue.num q, rest)
      | none => none

/-- Members of a JSON object after the opening brace (nonempty case). -/
def parseMembers : Nat → List Char → Option (List (String × JValue) × List Char)
  | 0, _ => none
  | Nat.succ n, cs =>
    match skipWs cs with
    | '"' :: rest =>
      match parseStringRest (rest.length + 1) rest with
      | some (kchars, rem) =>
        match skipWs rem with
        | ':' :: rem2 =>
          match parseValue n rem2 with
          | some (v, rem3) =>
            match skipWs rem3 with
            | ',' :: rem4 =>
              match parseMembers n rem4 with
              | some (fields, rem5) => some ((String.mk kchars, v) :: fields, rem5)
              | none => none
            | '}' :: rem4 => some ([(String.mk kchars, v)], rem4)
            | _ => none
          | none => none
        | _ => none
      | none => none
    | _ => none

/-- Elements of a JSON array after the opening bracket (nonempty case). -/
def parseElems : Nat → List Char → Option (List JValue × List Char)
  | 0, _ => none
  | Nat.succ n, cs =>
    match parseValue n cs with
    | some (v, rem) =>
      match skipWs rem with
      | ',' :: rem2 =>
        match parseElems n rem2 with
        | some (vs, rem3) => some (v :: vs, rem3)
        | none => none
      | ']' :: rem2 => some ([v], rem2)
      | _ => none
    | none => none

end

/-- `JSON.parse` on a whole text: one value, then only trailing whitespace.
`none` models a thrown `SyntaxError`.  The fuel `2 * length + 2` is always
sufficient: every two fuel units consume at least one input character. -/
def jsonParse (s : String) : Option JValue :=
  match parseValue (2 * s.length + 2) s.toList with
  | some (v, rest) => if skipWs rest = [] then some v else none
  | none => none

/-- `created_at` / `updated_at` timestamps as delivered by the API:
protobuf-JSON style, with the seconds as a decimal string. -/
structure Timestamp where
  seconds : String
  nanos : Int
deriving DecidableEq

/-- `Runner.spec.configuration` (src/main.ts:20-24). -/
structure RunnerConfiguration where
  region : String
  release_channel : String
  auto_update : Bool
deriving DecidableEq

/-- `Runner.spec` (src/main.ts:18-25).  `configuration` is optional because
the code guards the access with `runner.spec?.configuration?.region`. -/
structure RunnerSpec where
  desired_phase : String
  configuration : Option RunnerConfiguration
deriving DecidableEq

/-- `Runner.status` (src/main.ts:26-40).  `additional_info` entries are
name/value pairs. -/
structure RunnerStatus where
  updated_at : Option Timestamp
  version : String
  system_details : String
  phase : String
  region : String
  message : String
  additional_info : List (String × String)
deriving DecidableEq

/-- `Runner` (src/main.ts:6-41).  `kind` is a plain string: the TypeScript
union type does not constrain the runtime value, and the analyzer's
branching on it is exactly what several properties are about.  `created_at`,
`spec` and `status` are optional because the code defends each access
(`!createdAt`, `runner.spec?.`, `runner.status?.`). -/
structure Runner where
  runner_id : String
  name : String
  kind : String
  created_at : Option Timestamp
  updated_at : Option Timestamp
  spec : Option RunnerSpec
  status : Option RunnerStatus
deriving DecidableEq

/-- `Environment.status` (src/main.ts:47-50). -/
structure EnvironmentStatus where
  phase : String
  instance_id : Option String
deriving DecidableEq

/-- `Environment` (src/main.ts:43-51). -/
structure Environment where
  environment_id : String
  context_url : String
  runner_id : String
  status : Option EnvironmentStatus
deriving DecidableEq

/-- `RunnerMetrics` (src/main.ts:53-63).  `estimatedCost` is optional in the
source (`estimatedCost?: number`) and is filled in at the end of
`analyzeRunner`. -/
structure RunnerMetrics where
  runnerId : String
  name : String
  kind : String
  region : String
  uptime : ℚ
  phase : String
  systemDetails : JValue
  environments : List Environment
  estimatedCost : Option ℚ

/-- JavaScript `x || d` for an optional string: `undefined` (`none`) and the
empty string are falsy. -/
def orElseStr : Option String → String → String
  | none, d => d
  | some s, d => if s = "" then d else s

/-- JavaScript `x || d` for an optional number: `undefined`/`NaN` (`none`)
and `0` are falsy. -/
def orElseNum : Option ℚ → ℚ → ℚ
  | none, d => d
  | some q, d => if q = 0 then d else q

/-- `Number(str)` restricted to optionally signed decimal integer strings,
the format in which the API delivers timestamp seconds.  Any other string
is modelled as `NaN` (`none`); JavaScript's further numeric syntaxes
(whitespace, decimals, exponents, hex) do not occur in `created_at.seconds`
payloads and are outside the model. -/
def strToInt (s : String) : Option Int :=
  match s.toList with
  | '-' :: rest =>
    match takeDigits rest with
    | (d :: ds, []) => some (-(digitsToNat (d :: ds) : Int))
    | _ => none
  | cs =>
    match takeDigits cs with
    | (d :: ds, []) => some ((digitsToNat (d :: ds) : Int))
    | _ => none

/-- `calculateUptime` (src/main.ts:129-136).  The wall clock read
(`new Date()`) is passed explicitly in milliseconds.  `Number(seconds)` is
modelled by `strToInt`; an unparseable string makes `Number` produce `NaN`
(here `none`), which then propagates through the subtraction and
`Math.floor`. -/
def calculateUptime (createdAt : Option Timestamp) (nowMs : Int) : Option ℚ :=
  match createdAt with
  | none => some 0
  | some t =>
    if t.seconds = "" then some 0
    else
      match strToInt t.seconds with
      | none => none
      | some s => some ((⌊((nowMs : ℚ) - (s : ℚ) * 1000) / (1000 * 60 * 60)⌋ : ℤ) : ℚ)

/-- `parseSystemDetails` (src/main.ts:138-145).  The argument is optional
because the caller passes `runner.status?.system_details`. -/
def parseSystemDetails (details : Option String) : JValue :=
  match details with
  | none => JValue.obj []
  | some s =>
    if s = "" then JValue.obj []
    else
      match jsonParse s with
      | some v => v
      | none => JValue.obj [("raw", JValue.str s)]

/-- `getRegion` (src/main.ts:147-151):
`runner.status?.region || runner.spec?.configuration?.region || 'unknown'`. -/
def getRegion (runner : Runner) : String :=
  orElseStr (runner.status.map RunnerStatus.region)
    (orElseStr ((runner.spec.bind RunnerSpec.configuration).map RunnerConfiguration.region)
      "unknown")

/-- `hourlyRates.default` (src/main.ts:161). -/
def defaultRate : ℚ := 0.0416

/-- The `hourlyRates` table of `estimateCost` (src/main.ts:157-162);
`none` models an absent key (`undefined`). -/
def hourlyRates (key : String) : Option ℚ :=
  if key = "t3.medium" then some 0.0416
  else if key = "t3.large" then some 0.0832
  else if key = "t3.xlarge" then some 0.1664
  else if key = "default" then some defaultRate
  else none

/-- Property access `v.instanceType` on a parsed JSON value: only objects
have the property; on every other value it is `undefined` (`none`). -/
def jGet (v : JValue) (key : String) : Option JValue :=
  match v with
  | JValue.obj fields => List.lookup key fields
  | _ => none

/-- `metrics.systemDetails?.instanceType || 'default'` (src/main.ts:164),
as the key used in the subsequent `hourlyRates[instanceType]` lookup.  A
property value that is not a non-empty string either is falsy (so the
source takes the literal `'default'`) or stringifies to a key outside the
rate table (so the lookup falls back to the default rate); both roads end
at the default rate, so the model maps them to the key `"default"`
directly. -/
def instanceTypeOf (details : JValue) : String :=
  match jGet details "instanceType" with
  | some (JValue.str s) => if s = "" then "default" else s
  | _ => "default"

/-- `Number(x.toFixed(2))` (src/main.ts:173) on a finite value: round to
the nearest hundredth, ties toward the larger value, per the ECMAScript
`toFixed` specification. -/
def toFixed2 (q : ℚ) : ℚ := ((⌊q * 100 + 1 / 2⌋ : ℤ) : ℚ) / 100

/-- `estimateCost` (src/main.ts:153-174).  The final
`Number((cost + environmentCost).toFixed(2)) || 0` is the `orElseNum`
application: in the exact model the rounded total is never `NaN`, so the
`|| 0` only turns a zero (or, in JavaScript, `NaN`) into `0`. -/
def estimateCost (metrics : RunnerMetrics) : ℚ :=
  if metrics.kind = "RUNNER_KIND_LOCAL" then 0
  else
    let hourlyRate := orElseNum (hourlyRates (instanceTypeOf metrics.systemDetails)) defaultRate
    let cost := metrics.uptime * hourlyRate
    let environmentCost := (metrics.environments.length : ℚ) * 0.1 * metrics.uptime
    orElseNum (some (toFixed2 (cost + environmentCost))) 0

/-- `analyzeRunner` (src/main.ts:176-195).  The source is `async` but every
step is pure; the wall clock is passed explicitly (in ms). -/
def analyzeRunner (nowMs : Int) (runner : Runner) (environments : List Environment) :
    RunnerMetrics :=
  let uptime := calculateUptime runner.created_at nowMs
  let systemDetails := parseSystemDetails (runner.status.map RunnerStatus.system_details)
  let runnerEnvironments := environments.filter (fun env => env.runner_id == runner.runner_id)
  let metrics : RunnerMetrics :=
    { runnerId := orElseStr (some runner.runner_id) "unknown"
      name := orElseStr (some runner.name) "Unnamed Runner"
      kind := orElseStr (some runner.kind) "unknown"
      region := getRegion runner
      uptime := orElseNum uptime 0
      phase := orElseStr (runner.status.map RunnerStatus.phase) "unknown"
      systemDetails := systemDetails
      environments := runnerEnvironments
      estimatedCost := none }
  { metrics with estimatedCost := some (estimateCost metrics) }

/-- Summary total `totalCost` of `generateMarkdownReport` (src/main.ts:199). -/
def totalCost (metrics : List RunnerMetrics) : ℚ :=
  metrics.foldl (fun sum m => sum + orElseNum m.estimatedCost 0) 0

/-- Summary `remoteCount` of `generateMarkdownReport` (src/main.ts:200). -/
def remoteCount (metrics : List RunnerMetrics) : Nat :=
  (metrics.filter (fun m => m.kind == "RUNNER_KIND_REMOTE")).length

/-- Summary `localCount` of `generateMarkdownReport` (src/main.ts:201). -/
def localCount (metrics : List RunnerMetrics) : Nat :=
  (metrics.filter (fun m => m.kind == "RUNNER_KIND_LOCAL")).length

/-- Summary `totalEnvironments` of `generateMarkdownReport`
(src/main.ts:202). -/
def totalEnvironments (metrics : List RunnerMetrics) : Nat :=
  metrics.foldl (fun sum m => sum + m.environments.length) 0

/-- `inactiveRunners` (src/main.ts:259). -/
def inactiveRunners (metrics : List RunnerMetrics) : List RunnerMetrics :=
  metrics.filter (fun m => m.phase == "RUNNER_PHASE_INACTIVE")

/-- `highUptimeRunners` (src/main.ts:260). -/
def highUptimeRunners (metrics : List RunnerMetrics) : List RunnerMetrics :=
  metrics.filter (fun m => decide ((168 : ℚ) < m.uptime))

/-- `emptyRunners` (src/main.ts:261). -/
def emptyRunners (metrics : List RunnerMetrics) : List RunnerMetrics :=
  metrics.filter (fun m => m.environments.length == 0 && decide ((24 : ℚ) < m.uptime))

/-- `highCostRunners` (src/main.ts:262): `(m.estimatedCost || 0) > 100`. -/
def highCostRunners (metrics : List RunnerMetrics) : List RunnerMetrics :=
  metrics.filter (fun m => decide ((100 : ℚ) < orElseNum m.estimatedCost 0))

/-- The bullet lines of the Recommendations section of
`generateMarkdownReport` (src/main.ts:257-275), in emission order. -/
def recommendationLines (metrics : List RunnerMetrics) : List String :=
  (if 0 < (inactiveRunners metrics).length then
    ["- 🔴 Clean up " ++ toString (inactiveRunners metrics).length ++ " inactive runners"]
  else []) ++
  (if 0 < (highUptimeRunners metrics).length then
    ["- 🟡 Review " ++ toString (highUptimeRunners metrics).length ++
      " runners with high uptime (>1 week)"]
  else []) ++
  (if 0 < (emptyRunners metrics).length then
    ["- 🟡 Consider removing " ++ toString (emptyRunners metrics).length ++
      " runners with no environments (>24h uptime)"]
  else []) ++
  (if 0 < (highCostRunners metrics).length then
    ["- 🔴 Investigate " ++ toString (highCostRunners metrics).length ++
      " high-cost runners (>$100)"]
  else [])

/-! ### Concrete sample data used by the theorems below -/

/-- An environment attached to runner `"r1"`. -/
def envA : Environment :=
  ⟨"env-1", "https://example.com/a", "r1", some ⟨"ENVIRONMENT_PHASE_RUNNING", none⟩⟩

/-- A second environment attached to runner `"r1"`. -/
def envB : Environment :=
  ⟨"env-2", "https://example.com/b", "r1", some ⟨"ENVIRONMENT_PHASE_RUNNING", none⟩⟩

/-- An environment whose `runner_id` matches no runner in the samples. -/
def envOrphan : Environment :=
  ⟨"env-3", "https://example.com/c", "r-gone", some ⟨"ENVIRONMENT_PHASE_STOPPED", none⟩⟩

/-- A REMOTE runner created at epoch second 0, reporting instance type
`t3.large`, with a status region and a differing configured region. -/
def remoteRunner : Runner :=
  { runner_id := "r1", name := "remote-1", kind := "RUNNER_KIND_REMOTE",
    created_at := some ⟨"0", 0⟩, updated_at := none,
    spec := some ⟨"RUNNER_PHASE_ACTIVE", some ⟨"eu-west", "stable", true⟩⟩,
    status := some ⟨none, "1.0", "\x7b\"instanceType\":\"t3.large\"\x7d",
      "RUNNER_PHASE_ACTIVE", "us-east", "", []⟩ }

/-- A LOCAL runner created 5 hours before the scenario clock. -/
def localRunner : Runner :=
  { runner_id := "r2", name := "local-1", kind := "RUNNER_KIND_LOCAL",
    created_at := some ⟨"18000", 0⟩, updated_at := none,
    spec := none, status := none }

/-- The scenario clock: 36 000 000 ms after the epoch (hour 10). -/
def scenarioNow : Int := 36000000

/-- The spec's end-to-end scenario, run through the actual derivation:
one REMOTE `t3.large` runner with uptime 10 h and two environments, one
LOCAL runner with uptime 5 h and no environment. -/
def scenarioMetrics : List RunnerMetrics :=
  [remoteRunner, localRunner].map (fun r => analyzeRunner scenarioNow r [envA, envB])

/-- A REMOTE runner whose `created_at` lies 2 hours in the future of the
1-hour clock used with it (clock skew). -/
def runnerCreatedInFuture : Runner :=
  { runner_id := "rf", name := "future", kind := "RUNNER_KIND_REMOTE",
    created_at := some ⟨"10800", 0⟩, updated_at := none,
    spec := none, status := none }

/-- A LOCAL metrics record with nonzero uptime and an attached environment. -/
def localMetricsSample : RunnerMetrics :=
  { runnerId := "r2", name := "local-1", kind := "RUNNER_KIND_LOCAL", region := "unknown",
    uptime := 5, phase := "RUNNER_PHASE_ACTIVE", systemDetails := JValue.obj [],
    environments := [envA], estimatedCost := none }

/-- A metrics record with an unrecognized `kind` value. -/
def unknownKindMetrics : RunnerMetrics :=
  { runnerId := "ru", name := "u", kind := "RUNNER_KIND_VIRTUAL", region := "unknown",
    uptime := 3, phase := "RUNNER_PHASE_ACTIVE", systemDetails := JValue.obj [],
    environments := [envA], estimatedCost := none }

/-- A metrics record that matches all four recommendation rules at once:
inactive phase, uptime 200 h, zero environments, estimated cost 150. -/
def allRulesMetrics : RunnerMetrics :=
  { runnerId := "r9", name := "n", kind := "RUNNER_KIND_REMOTE", region := "us",
    uptime := 200, phase := "RUNNER_PHASE_INACTIVE", systemDetails := JValue.obj [],
    environments := [], estimatedCost := some 150 }

/-! ### Helper lemmas -/

/-- `x || 0` on a number that is present (not `NaN`) is the number itself. -/
theorem orElseNum_some_zero (q : ℚ) : orElseNum (some q) 0 = q := by
  simp only [orElseNum]
  split_ifs with h
  · exact h.symm
  · rfl

/-- Multiplicity of an element in a filtered list. -/
theorem count_filter_beq (e : Environment) (p : Environment → Bool) (l : List Environment) :
    (l.filter p).count e = if p e then l.count e else 0 := by
  induction l with
  | nil => simp
  | cons a l ih =>
    by_cases hpa : p a
    · rw [List.filter_cons_of_pos hpa, List.count_cons, List.count_cons, ih]
      split_ifs <;> simp_all
    · rw [List.filter_cons_of_neg hpa, List.count_cons, ih]
      split_ifs <;> simp_all

/-- Multiplicity of an environment in the concatenation of all per-runner
environment lists: the full input multiplicity when some runner matches its
foreign key, zero otherwise. -/
theorem partition_count_aux (nowMs : Int) (envs : List Environment) (e : Environment) :
    ∀ runners : List Runner, (runners.map Runner.runner_id).Nodup →
      (runners.map (fun r => (analyzeRunner nowMs r envs).environments)).flatten.count e =
        if runners.any (fun r => r.runner_id == e.runner_id) then envs.count e else 0
  | [], _ => by simp
  | r :: rs, h => by
    simp only [List.map_cons, List.nodup_cons] at h
    obtain ⟨hr, hrs⟩ := h
    have ih := partition_count_aux nowMs envs e rs hrs
    have henv : (analyzeRunner nowMs r envs).environments =
        envs.filter (fun x => x.runner_id == r.runner_id) := rfl
    simp only [List.map_cons, List.flatten_cons, List.count_append, henv,
      count_filter_beq, ih, List.any_cons]
    by_cases hmatch : (e.runner_id == r.runner_id) = true
    · have heq : e.runner_id = r.runner_id := by simpa using hmatch
      have hnone : rs.any (fun r2 => r2.runner_id == e.runner_id) = false := by
        rw [List.any_eq_false]
        intro r2 hr2 hb
        have h2 : r2.runner_id = e.runner_id := by simpa using hb
        exact hr (List.mem_map.mpr ⟨r2, hr2, h2.trans heq⟩)
      have hhead : (r.runner_id == e.runner_id) = true := by simpa using heq.symm
      simp [hmatch, hnone, hhead]
    · have hhead : ¬ (r.runner_id == e.runner_id) = true := by
        intro hb
        exact hmatch (by simpa using (eq_of_beq hb).symm)
      simp [hmatch, hhead]

/-- No environment is contained in the environment list of more than one
derived metrics record, provided runner ids are pairwise distinct. -/
theorem partition_disjoint_aux (nowMs : Int) (envs : List Environment) (e : Environment) :
    ∀ runners : List Runner, (runners.map Runner.runner_id).Nodup →
      (runners.map (fun r => analyzeRunner nowMs r envs)).countP
        (fun m => m.environments.contains e) ≤ 1
  | [], _ => by simp
  | r :: rs, h => by
    simp only [List.map_cons, List.nodup_cons] at h
    obtain ⟨hr, hrs⟩ := h
    have ih := partition_disjoint_aux nowMs envs e rs hrs
    rw [List.map_cons]
    by_cases hc : ((analyzeRunner nowMs r envs).environments.contains e) = true
    · have hmem0 : e ∈ (analyzeRunner nowMs r envs).environments := by
        simpa [List.contains, List.elem_iff] using hc
      have hmem : e ∈ envs.filter (fun x => x.runner_id == r.runner_id) := hmem0
      have heq : e.runner_id = r.runner_id := by
        have := (List.mem_filter.mp hmem).2
        simpa using this
      have hzero : (rs.map (fun r2 => analyzeRunner nowMs r2 envs)).countP
          (fun m => m.environments.contains e) = 0 := by
        rw [List.countP_eq_zero]
        intro m hm hcm
        obtain ⟨r2, hr2, rfl⟩ := List.mem_map.mp hm
        have hmem02 : e ∈ (analyzeRunner nowMs r2 envs).environments := by
          simpa [List.contains, List.elem_iff] using hcm
        have hmem2 : e ∈ envs.filter (fun x => x.runner_id == r2.runner_id) := hmem02
        have heq2 : e.runner_id = r2.runner_id := by
          have := (List.mem_filter.mp hmem2).2
          simpa using this
        exact hr (List.mem_map.mpr ⟨r2, hr2, heq2.symm.trans heq⟩)
      rw [List.countP_cons, hzero]
      simp [hmem0]
    · have hnotmem : e ∉ (analyzeRunner nowMs r envs).environments := by
        simpa [List.contains, List.elem_iff] using hc
      rw [List.countP_cons]
      simpa [hnotmem] using ih

/-- Every rate reachable from the table (with its `|| default` fallback) is
positive. -/
theorem hourlyRate_pos (key : String) :
    0 < orElseNum (hourlyRates key) defaultRate := by
  unfold hourlyRates
  split_ifs <;> simp [orElseNum, defaultRate] <;> norm_num

/-- Rounding to two decimals preserves nonnegativity. -/
theorem toFixed2_nonneg (q : ℚ) (h : 0 ≤ q) : 0 ≤ toFixed2 q := by
  unfold toFixed2
  apply div_nonneg _ (by norm_num)
  exact_mod_cast Int.floor_nonneg.mpr (by linarith)

/-! ### Claim theorems -/

/-- Claim C1: every metrics record whose kind is `RUNNER_KIND_LOCAL` gets
estimated cost exactly 0, regardless of uptime, environment count or system
details. -/
theorem estimateCost_local_zero (m : RunnerMetrics)
    (h : m.kind = "RUNNER_KIND_LOCAL") : estimateCost m = 0 := by
  simp [estimateCost, h]

/-- Witness for C1: a LOCAL record with uptime 5 and one environment costs 0. -/
theorem estimateCost_local_zero_witness : estimateCost localMetricsSample = 0 :=
  estimateCost_local_zero localMetricsSample rfl

/-- Claim C2 counterexample: the uptime `-2` produced by derivation for a
runner created two hours in the future makes `estimateCost` return
`-0.08 < 0`, so the claimed unconditional nonnegativity fails. -/
theorem estimateCost_negative_on_derived_uptime :
    estimateCost (analyzeRunner 3600000 runnerCreatedInFuture []) = -2 / 25 ∧
    estimateCost (analyzeRunner 3600000 runnerCreatedInFuture []) < 0 := by
  constructor
  · with_unfolding_all decide
  · with_unfolding_all decide

/-- Claim C2 (amended): `estimateCost` always returns a defined rational (in
the exact model no `NaN` or infinity can arise), and the result is
nonnegative for every record whose uptime is nonnegative; a record with
negative uptime — derivable when `created_at` lies in the future — can yield
a negative cost. -/
theorem estimateCost_nonneg_of_uptime_nonneg (m : RunnerMetrics)
    (h : 0 ≤ m.uptime) : 0 ≤ estimateCost m := by
  unfold estimateCost
  split_ifs with hk
  · norm_num
  · have hrate := hourlyRate_pos (instanceTypeOf m.systemDetails)
    have hbase : 0 ≤ m.uptime *
        orElseNum (hourlyRates (instanceTypeOf m.systemDetails)) defaultRate :=
      mul_nonneg h (le_of_lt hrate)
    have henv : 0 ≤ (m.environments.length : ℚ) * 0.1 * m.uptime :=
      mul_nonneg (mul_nonneg (Nat.cast_nonneg _) (by norm_num)) h
    show 0 ≤ orElseNum (some (toFixed2
      (m.uptime * orElseNum (hourlyRates (instanceTypeOf m.systemDetails)) defaultRate +
        (m.environments.length : ℚ) * 0.1 * m.uptime))) 0
    rw [orElseNum_some_zero]
    exact toFixed2_nonneg _ (add_nonneg hbase henv)

/-- Witness for C2 (amended): a record with uptime 200 has nonnegative cost. -/
theorem estimateCost_nonneg_witness : 0 ≤ estimateCost allRulesMetrics :=
  estimateCost_nonneg_of_uptime_nonneg allRulesMetrics (by with_unfolding_all decide)

/-- Claim C3 counterexample: a runner created 2 hours in the future of the
clock derives uptime `-2`, not `0` — negative durations are not clamped. -/
theorem uptime_future_not_clamped :
    (analyzeRunner 3600000 runnerCreatedInFuture []).uptime = -2 ∧
    (analyzeRunner 3600000 runnerCreatedInFuture []).uptime < 0 := by
  constructor
  · with_unfolding_all decide
  · with_unfolding_all decide

/-- Claim C3 (amended): the derived uptime is
`floor((now - createdAt) / 1 hour)` whenever the seconds string parses, and
`0` when `created_at` is missing, its seconds component is empty, or the
seconds string is unparseable (`NaN`, clamped by `uptime || 0`); a negative
duration yields the negative floor, not `0`. -/
theorem uptime_characterization (nowMs : Int) (r : Runner) (envs : List Environment) :
    (r.created_at = none → (analyzeRunner nowMs r envs).uptime = 0) ∧
    (∀ t : Timestamp, r.created_at = some t → t.seconds = "" →
      (analyzeRunner nowMs r envs).uptime = 0) ∧
    (∀ t : Timestamp, r.created_at = some t → strToInt t.seconds = none →
      (analyzeRunner nowMs r envs).uptime = 0) ∧
    (∀ (t : Timestamp) (s : Int), r.created_at = some t → strToInt t.seconds = some s →
      (analyzeRunner nowMs r envs).uptime =
        ((⌊(((nowMs : Int) : ℚ) - ((s : Int) : ℚ) * 1000) / (1000 * 60 * 60)⌋ : ℤ) : ℚ)) := by
  refine ⟨?_, ?_, ?_, ?_⟩
  · intro h
    show orElseNum (calculateUptime r.created_at nowMs) 0 = 0
    rw [h]
    simp [calculateUptime, orElseNum]
  · intro t ht hsec
    show orElseNum (calculateUptime r.created_at nowMs) 0 = 0
    rw [ht]
    simp [calculateUptime, hsec, orElseNum]
  · intro t ht hsec
    show orElseNum (calculateUptime r.created_at nowMs) 0 = 0
    rw [ht]
    by_cases hse : t.seconds = ""
    · simp [calculateUptime, hse, orElseNum]
    · simp [calculateUptime, hse, hsec, orElseNum]
  · intro t s ht hs
    have hne : t.seconds ≠ "" := by
      intro he
      rw [he] at hs
      rw [show strToInt "" = none from rfl] at hs
      exact Option.noConfusion hs
    show orElseNum (calculateUptime r.created_at nowMs) 0 = _
    rw [ht]
    simp only [calculateUptime, if_neg hne, hs]
    exact orElseNum_some_zero _

/-- Witness for C3 (amended): the future-created runner's uptime equals the
(negative) floor. -/
theorem uptime_characterization_witness :
    (analyzeRunner 3600000 runnerCreatedInFuture []).uptime =
      ((⌊((((3600000 : Int)) : ℚ) - (((10800 : Int)) : ℚ) * 1000) / (1000 * 60 * 60)⌋ : ℤ) : ℚ) :=
  (uptime_characterization 3600000 runnerCreatedInFuture []).2.2.2 ⟨"10800", 0⟩ 10800 rfl
    (by decide)

/-- Claim C4: region resolution takes the status-reported region when
present (non-empty), else the configured region when present, else the
literal `"unknown"`; with status region `"us-east"` and configured region
`"eu-west"` it resolves to `"us-east"`. -/
theorem getRegion_precedence :
    (∀ (r : Runner) (st : RunnerStatus), r.status = some st → st.region ≠ "" →
      getRegion r = st.region) ∧
    (∀ (r : Runner) (sp : RunnerSpec) (cfg : RunnerConfiguration),
      (r.status = none ∨ ∃ st, r.status = some st ∧ st.region = "") →
      r.spec = some sp → sp.configuration = some cfg → cfg.region ≠ "" →
      getRegion r = cfg.region) ∧
    (∀ r : Runner,
      (r.status = none ∨ ∃ st, r.status = some st ∧ st.region = "") →
      (r.spec = none ∨ ∃ sp, r.spec = some sp ∧
        (sp.configuration = none ∨ ∃ cfg, sp.configuration = some cfg ∧ cfg.region = "")) →
      getRegion r = "unknown") ∧
    getRegion remoteRunner = "us-east" := by
  refine ⟨?_, ?_, ?_, rfl⟩
  · rintro r st hst hne
    simp [getRegion, hst, orElseStr, hne]
  · rintro r sp cfg (hnone | ⟨st, hst, hempty⟩) hsp hcfg hne <;>
      simp [getRegion, orElseStr, hsp, hcfg, hne, *]
  · rintro r (hnone | ⟨st, hst, hempty⟩) (hspn | ⟨sp, hsp, hcfgn | ⟨cfg, hcfg, hcempty⟩⟩) <;>
      simp [getRegion, orElseStr, *]

/-- Witness for C4: a runner with no status and no spec resolves to
`"unknown"`. -/
theorem getRegion_precedence_witness : getRegion runnerCreatedInFuture = "unknown" :=
  getRegion_precedence.2.2.1 runnerCreatedInFuture (Or.inl rfl) (Or.inl rfl)

/-- Claim C5: with pairwise-distinct runner ids, derivation partitions the
environments exactly — each environment occurs in the concatenation of the
per-runner lists with its full input multiplicity if its `runner_id` matches
some runner and not at all otherwise, and no environment is contained in
more than one derived record. -/
theorem environment_partition (nowMs : Int) (runners : List Runner)
    (envs : List Environment) (hids : (runners.map Runner.runner_id).Nodup) :
    (∀ e : Environment,
      (runners.map (fun r => (analyzeRunner nowMs r envs).environments)).flatten.count e =
        if runners.any (fun r => r.runner_id == e.runner_id) then envs.count e else 0) ∧
    (∀ e : Environment,
      (runners.map (fun r => analyzeRunner nowMs r envs)).countP
        (fun m => m.environments.contains e) ≤ 1) :=
  ⟨fun e => partition_count_aux nowMs envs e runners hids,
   fun e => partition_disjoint_aux nowMs envs e runners hids⟩

/-- Witness for C5: two runners, two matching environments and one orphan. -/
theorem environment_partition_witness :
    (([remoteRunner, localRunner].map
        (fun r => (analyzeRunner scenarioNow r [envA, envB, envOrphan]).environments)).flatten.count envA =
      if [remoteRunner, localRunner].any (fun r => r.runner_id == envA.runner_id) then
        ([envA, envB, envOrphan].count envA) else 0) ∧
    (([remoteRunner, localRunner].map
        (fun r => analyzeRunner scenarioNow r [envA, envB, envOrphan])).countP
      (fun m => m.environments.contains envA) ≤ 1) := by
  have h := environment_partition scenarioNow [remoteRunner, localRunner]
    [envA, envB, envOrphan] (by decide)
  exact ⟨h.1 envA, h.2 envA⟩

/-- Claim C6: the end-to-end scenario — one REMOTE `t3.large` runner with
uptime 10 h and 2 environments, one LOCAL runner with uptime 5 h and 0
environments — gives REMOTE cost 2.83, LOCAL cost 0, summary total cost
2.83, remote count 1, local count 1 and total environment count 2. -/
theorem scenario_end_to_end :
    scenarioMetrics.map RunnerMetrics.uptime = [10, 5] ∧
    scenarioMetrics.map (fun m => m.environments.length) = [2, 0] ∧
    scenarioMetrics.map RunnerMetrics.estimatedCost = [some (283 / 100), some 0] ∧
    totalCost scenarioMetrics = 283 / 100 ∧
    remoteCount scenarioMetrics = 1 ∧
    localCount scenarioMetrics = 1 ∧
    totalEnvironments scenarioMetrics = 2 := by
  refine ⟨?_, ?_, ?_, ?_, ?_, ?_, ?_⟩ <;> with_unfolding_all decide

/-- Claim C7: a record whose kind is neither LOCAL nor REMOTE takes the
metered path — its cost equals that of the same record re-labelled REMOTE,
and equals the rate-lookup/base-cost/surcharge formula. -/
theorem estimateCost_unknown_kind_metered (m : RunnerMetrics)
    (h : m.kind ≠ "RUNNER_KIND_LOCAL") :
    estimateCost m = estimateCost { m with kind := "RUNNER_KIND_REMOTE" } ∧
    estimateCost m = orElseNum (some (toFixed2
      (m.uptime * orElseNum (hourlyRates (instanceTypeOf m.systemDetails)) defaultRate +
        (m.environments.length : ℚ) * 0.1 * m.uptime))) 0 := by
  constructor
  · simp [estimateCost, h]
  · simp [estimateCost, h]

/-- Witness for C7: a record of kind `RUNNER_KIND_VIRTUAL` is priced like a
REMOTE one. -/
theorem estimateCost_unknown_kind_metered_witness :
    estimateCost unknownKindMetrics =
      estimateCost { unknownKindMetrics with kind := "RUNNER_KIND_REMOTE" } :=
  (estimateCost_unknown_kind_metered unknownKindMetrics (by decide)).1

/-- Claim C8: every non-empty system-details string on which the JSON parse
fails is wrapped as `\x7braw: <original string>\x7d` instead of raising an
error. -/
theorem parseSystemDetails_malformed_wraps_raw (s : String) (hne : s ≠ "")
    (hfail : jsonParse s = none) :
    parseSystemDetails (some s) = JValue.obj [("raw", JValue.str s)] := by
  simp [parseSystemDetails, hne, hfail]

/-- Witness for C8: the string `"\x7bnot json"` fails to parse and gets
wrapped. -/
theorem parseSystemDetails_malformed_witness :
    parseSystemDetails (some "\x7bnot json") =
      JValue.obj [("raw", JValue.str "\x7bnot json")] :=
  parseSystemDetails_malformed_wraps_raw "\x7bnot json" (by decide) rfl

/-- Claim C9: the four recommendation rules are independent and additive —
the sample record with inactive phase, uptime 200 h, zero environments and
cost 150 fires all four bullets at once, and each bullet's count is the
number of records matching that rule alone. -/
theorem recommendation_rules_independent :
    recommendationLines [allRulesMetrics] =
      ["- 🔴 Clean up 1 inactive runners",
       "- 🟡 Review 1 runners with high uptime (>1 week)",
       "- 🟡 Consider removing 1 runners with no environments (>24h uptime)",
       "- 🔴 Investigate 1 high-cost runners (>$100)"] ∧
    ∀ ms : List RunnerMetrics,
      (inactiveRunners ms).length = ms.countP (fun m => m.phase == "RUNNER_PHASE_INACTIVE") ∧
      (highUptimeRunners ms).length = ms.countP (fun m => decide ((168 : ℚ) < m.uptime)) ∧
      (emptyRunners ms).length =
        ms.countP (fun m => m.environments.length == 0 && decide ((24 : ℚ) < m.uptime)) ∧
      (highCostRunners ms).length =
        ms.countP (fun m => decide ((100 : ℚ) < orElseNum m.estimatedCost 0)) := by
  constructor
  · with_unfolding_all decide
  · intro ms
    refine ⟨?_, ?_, ?_, ?_⟩ <;>
      simp [inactiveRunners, highUptimeRunners, emptyRunners, highCostRunners,
        List.countP_eq_length_filter]

/-- Claim C10: the empty system-details string yields the empty object, not
the wrapped-raw fallback. -/
theorem parseSystemDetails_empty_object :
    parseSystemDetails (some "") = JValue.obj [] ∧
    parseSystemDetails (some "") ≠ JValue.obj [("raw", JValue.str "")] := by
  refine ⟨rfl, ?_⟩
  intro h
  rw [show parseSystemDetails (some "") = JValue.obj [] from rfl] at h
  simp at h
